import Mathlib

/-!
Verification development for the pyvism toolchain: a shallow embedding of the
compiler's mode-driven scanner/type-checker (src/src/pyvism/compiler.py) and of
the virtual machine (src/src/pyvism/vm.py and src/src/pyvism/vm/vm.py), with
theorems settling the frozen behavioural claims about them.

Constant tables living in modules outside src/ (pyvism/constants.py,
pyvism/runtime/builtins.py, pyvism/instructions.py, pyvism/runtime/utils.py)
are modelled from the specification; each such definition carries a doc
comment starting with `Modelled from the spec:`.
-/

namespace Pyvism

/-- Modelled from the spec: `MEMORY_MAX_ADDR` comes from pyvism/constants.py,
which is not under src/. The spec only requires a flat memory of
`MEMORY_MAX_ADDR` slots with `REGISTER_MAX_ADDR ≤ MEMORY_MAX_ADDR`; the exact
value is out of scope, so a small representative value is used. -/
def MEMORY_MAX_ADDR : Nat := 16

/-- Modelled from the spec: `REGISTER_MAX_ADDR` from pyvism/constants.py
(not under src/); chosen so that the invariant
`REGISTER_MAX_ADDR ≤ MEMORY_MAX_ADDR` checked by `Compiler.__init__` holds. -/
def REGISTER_MAX_ADDR : Nat := 4

/-- Modelled from the spec: the distinguished `NULL` address from
pyvism/constants.py (not under src/). The spec calls it "a distinguished
`NULL` address" denoting "no target"; the code indexes
`list(STREAM_IDS.keys())[self.assign_addr + 1]`, which pins it to -1. -/
def NULL : Int := -1

/-- Dynamic value universe. Per the spec's design note, memory values are
"a tagged-union/sum type over the supported literal kinds (integer, text, and
the distinguished unset variant), never as an open-ended dynamic type".
`none` models Python's `None` (the VM's initial memory contents). -/
inductive PyVal where
  | none
  | vInt (n : Int)
  | vStr (s : String)
deriving DecidableEq

/-- Python-level type tags. `tNone` is `type(None)` (the VM's initial typing
array), `tUnset` is the compiler's `UnsetType`, `tInt`/`tStr` are `int`/`str`.
Per the spec's design note the Type Registry "compares tags, not language
runtime types", so `isinstance` checks on this closed universe are tag
equality. -/
inductive PyType where
  | tNone
  | tUnset
  | tInt
  | tStr
deriving DecidableEq

def PyVal.typeOf : PyVal → PyType
  | .none => .tNone
  | .vInt _ => .tInt
  | .vStr _ => .tStr

/-- `type.__name__` as used in diagnostics (via `get_name`, whose module is
not under src/; names follow Python's `__name__`). -/
def typeName : PyType → String
  | .tNone => "NoneType"
  | .tUnset => "UnsetType"
  | .tInt => "int"
  | .tStr => "str"

/-- Python `str(value)`. -/
def pyStr : PyVal → String
  | .none => "None"
  | .vInt n => toString n
  | .vStr s => s

/-- Simplified Python `repr` of a string/char payload, used only inside
diagnostic message text (special-character escaping is not reproduced). -/
def pyRepr (s : String) : String := "'" ++ s ++ "'"

/-- Physical index of Python list subscription `l[i]` for a list of length
`len`: nonnegative indices are used as-is, negative indices wrap from the end,
anything else is out of range (Python raises `IndexError`). -/
def physIdx (len : Nat) (i : Int) : Option Nat :=
  if 0 ≤ i ∧ i < (len : Int) then some i.toNat
  else if -(len : Int) ≤ i ∧ i < 0 then some ((len : Int) + i).toNat
  else none

/-- Python list subscription `l[i]` (with negative-index wrap); `Option.none`
models the out-of-range `IndexError` case. -/
def pyIdx (l : List α) (i : Int) : Option α :=
  (physIdx l.length i).bind (fun n => l[n]?)

/-- Python list item assignment `l[i] = v` (with negative-index wrap). Out of
range, Python raises `IndexError`; that case is modelled as a no-op and is
not relied on by any theorem. -/
def pySet (l : List α) (i : Int) (v : α) : List α :=
  match physIdx l.length i with
  | some n => l.set n v
  | Option.none => l

inductive TargetKind where
  | Memory
  | Register
  | Stream
deriving DecidableEq

/-- A reference to a storage location (runtime/builtins.py `Target`): a kind
plus an address (`id` in the compiler variant, `address` in vm.py). -/
structure Target where
  kind : TargetKind
  id : Int
deriving DecidableEq

inductive Mode where
  | Normal
  | Select
  | Assign
deriving DecidableEq

inductive AssignKind where
  | Integer
  | String
deriving DecidableEq

/-- An address's currently-known type (runtime/builtins.py `TypeDef`): either
a `Const` type or a `Var` type carrying the source span of the assignment
that established it. -/
inductive TypeDef where
  | const (t : PyType)
  | var (t : PyType) (line_number : Nat) (spos : Nat) (epos : Nat)
deriving DecidableEq

def TypeDef.type : TypeDef → PyType
  | .const t => t
  | .var t _ _ _ => t

structure ErrorLine where
  line_number : Nat
  line : String
  spos : Nat
  epos : Nat
  label : String
deriving DecidableEq

structure InfoLine where
  line_number : Nat
  line : String
  spos : Nat
  epos : Nat
  label : String
deriving DecidableEq

inductive ErrKind where
  | synErr
  | valErr
  | typErr
deriving DecidableEq

/-- Diagnostic record (runtime/errors.py `Error` family, used as a data
carrier): `kind` distinguishes VismSyntaxError / VismValueError /
VismTypeError. -/
structure Error where
  kind : ErrKind
  message : String
  file : String
  errorLine : ErrorLine
  infos : List InfoLine
  hint : Option String
  candidates : List String
deriving DecidableEq

/-- Mnemonic identities of the instruction set (vm.py `InstructionSet` and, for
the specialized variants, the type-specialization targets of
pyvism/instructions.py, which is not under src/ and is modelled from the
spec's overload-resolution design note). -/
inductive Mn where
  | mov
  | add
  | sub
  | mul
  | intdiv
  | modulo
  | divmod
  | write
  | flush
  | print
  | addInt
  | addStr
  | subInt
  | subStr
  | mulInt
  | mulStrInt
  | mulIntStr
  | intdivInt
  | moduloInt
  | divmodInt
deriving DecidableEq

/-- Arity of a mnemonic: the number of operands its transition function
consumes (vm.py computes this from the function signature). -/
def Mn.args : Mn → Nat
  | .mov => 2
  | .add => 2
  | .sub => 2
  | .mul => 2
  | .intdiv => 2
  | .modulo => 2
  | .divmod => 2
  | .write => 2
  | .flush => 0
  | .print => 1
  | .addInt => 2
  | .addStr => 2
  | .subInt => 2
  | .subStr => 2
  | .mulInt => 2
  | .mulStrInt => 2
  | .mulIntStr => 2
  | .intdivInt => 2
  | .moduloInt => 2
  | .divmodInt => 2

/-- `mnemonic.func.__name__`, used in operation type-error messages. -/
def Mn.funcName : Mn → String
  | .mov => "mov"
  | .add => "add"
  | .sub => "sub"
  | .mul => "mul"
  | .intdiv => "intdiv"
  | .modulo => "modulo"
  | .divmod => "divmod"
  | .write => "write"
  | .flush => "flush"
  | .print => "print"
  | .addInt => "add_int"
  | .addStr => "add_str"
  | .subInt => "sub_int"
  | .subStr => "sub_str"
  | .mulInt => "mul_int"
  | .mulStrInt => "mul_str_int"
  | .mulIntStr => "mul_int_str"
  | .intdivInt => "intdiv_int"
  | .moduloInt => "modulo_int"
  | .divmodInt => "divmod_int"

/-- An instruction operand: either a `Target` or a literal value. -/
inductive Operand where
  | target (t : Target)
  | val (v : PyVal)
deriving DecidableEq

/-- A compiled instruction as stored in bytecode: a mnemonic identity bound to
concrete operands. -/
structure Instr where
  mn : Mn
  operands : List Operand
deriving DecidableEq

/-- Operator-character table. Taken from `instruction_map` at the bottom of
src/src/pyvism/vm.py (the compiler imports the equivalent `char_map` from
pyvism/instructions.py). -/
def char_map : Char → Option Mn
  | '+' => some .add
  | '-' => some .sub
  | '×' => some .mul
  | '/' => some .intdiv
  | '%' => some .modulo
  | '÷' => some .divmod
  | 'p' => some .print
  | 'f' => some .flush
  | _ => Option.none

/-- Modelled from the spec: `op_type_specialization` lives in
pyvism/instructions.py, which is not under src/. Per the spec, `+` specializes
to integer addition or string concatenation (no mixed combination), `-` and
`×` follow the vm.py dynamic dispatch (int/int and str/str for `-`; int/int,
str/int and int/str for `×`), and the division family accepts only
integer/integer. Mnemonics without a table (`print`, `flush`) have none. -/
def op_type_specialization : Mn → Option (List (List PyType × Option Mn))
  | .add => some [([.tInt, .tInt], some .addInt), ([.tStr, .tStr], some .addStr)]
  | .sub => some [([.tInt, .tInt], some .subInt), ([.tStr, .tStr], some .subStr)]
  | .mul => some [([.tInt, .tInt], some .mulInt), ([.tStr, .tInt], some .mulStrInt),
      ([.tInt, .tStr], some .mulIntStr)]
  | .intdiv => some [([.tInt, .tInt], some .intdivInt)]
  | .modulo => some [([.tInt, .tInt], some .moduloInt)]
  | .divmod => some [([.tInt, .tInt], some .divmodInt)]
  | _ => Option.none

/-- Lookup in a specialization table by exact operand type tuple. -/
def tblLookup : List (List PyType × Option Mn) → List PyType → Option (Option Mn)
  | [], _ => Option.none
  | (k, v) :: rest, t => if k = t then some v else tblLookup rest t

/-- Modelled from the spec: the target-kind selector characters come from
`TargetKind` in pyvism/runtime/builtins.py (not under src/); the spec only
says "a character that denotes a target kind (Memory/Register/Stream
selector)". Representative characters are used. -/
def targetKindOfChar : Char → Option TargetKind
  | '&' => some .Memory
  | '$' => some .Register
  | ':' => some .Stream
  | _ => Option.none

/-- The mode-switch character. Pinned by the candidate hints rendered in
`Compiler.change_mode` (backquoted strings of the shape caret-plus-selector). -/
def PRGM_MODE_CHAR : Char := '^'

/-- The macro-switch character. Pinned by the message text of
`Compiler.run_macro` (a question mark before the macro character). -/
def DEBUG_MODE_CHAR : Char := '?'

/-- Modelled from the spec: `NS_MODES` (the mode-selector table) lives in
pyvism/runtime/builtins.py, not under src/. The spec requires a selector for
returning to `Normal` and selectors entering assignment modes, each
assignment selector also choosing an `AssignKind` (integer or string literal
grammar). -/
def NS_MODES : Char → Option Mode
  | 'n' => some .Normal
  | 'i' => some .Assign
  | 's' => some .Assign
  | _ => Option.none

/-- The keys of `NS_MODES`, in table order (used for candidate listings). -/
def NS_MODES_keys : List Char := ['n', 'i', 's']

/-- Modelled from the spec: `AssignKind` selector characters (the same
characters that enter the assignment mode choose the literal grammar). -/
def assignKindOfChar : Char → Option AssignKind
  | 'i' => some .Integer
  | 's' => some .String
  | _ => Option.none

/-- Modelled from the spec: `MacroKind.values()` from
pyvism/runtime/builtins.py (not under src/). The only required macro is
"debug". -/
def MacroKindValues : List Char := ['d']

/-- Modelled from the spec: `DISCARDED_CHARS` from pyvism/runtime/builtins.py
(not under src/): "whitespace-class characters are dropped everywhere except
inside an assignment buffer". -/
def DISCARDED_CHARS : List Char := [' ', '\t']

/-- Modelled from the spec: `ESCAPABLE_CHARS` from pyvism/runtime/builtins.py
(not under src/): "a fixed escapable-character table (mapping single letters
to control characters)". -/
def ESCAPABLE_CHARS : Char → Option Char
  | 'n' => some '\n'
  | 't' => some '\t'
  | '\\' => some '\\'
  | _ => Option.none

/-- Modelled from the spec: `is_valid_address` from pyvism/runtime/utils.py
(not under src/): the `Select` buffer "must parse as a valid address literal
(fixed radix)"; the compiler then converts it with `int(str_value, base=16)`,
so validity is hexadecimal parseability. -/
def hexDigitVal : Char → Option Nat
  | c =>
    if c.isDigit then some (c.toNat - 48)
    else if 'a' ≤ c ∧ c ≤ 'f' then some (c.toNat - 87)
    else if 'A' ≤ c ∧ c ≤ 'F' then some (c.toNat - 55)
    else Option.none

def isValidAddress (s : String) : Bool :=
  !s.toList.isEmpty && s.toList.all (fun c => (hexDigitVal c).isSome)

/-- `int(str_value, base=16)`. -/
def hexValue (s : String) : Int :=
  (s.toList.foldl (fun a c => a * 16 + ((hexDigitVal c).getD 0)) 0 : Nat)

def decDigitsVal (cs : List Char) : Int :=
  (cs.foldl (fun a c => a * 10 + (c.toNat - 48)) 0 : Nat)

/-- Modelled from the spec: `evaluate` from pyvism/runtime/utils.py (not under
src/) parses the assignment buffer "per the active AssignKind into a typed
literal"; the integer grammar accepts decimal integers with an optional
leading minus sign, the string grammar accepts the text as-is.
`Option.none` models the `Err` (parse failure) result. -/
def evaluate (str : String) (kind : AssignKind) : Option PyVal :=
  match kind with
  | .Integer =>
    match str.toList with
    | '-' :: rest =>
      if !rest.isEmpty && rest.all Char.isDigit then some (.vInt (-(decDigitsVal rest)))
      else Option.none
    | cs =>
      if !cs.isEmpty && cs.all Char.isDigit then some (.vInt (decDigitsVal cs))
      else Option.none
  | .String => some (.vStr str)

/-- Per-mode scan buffers (runtime/builtins.py `ModeBufferMap`): one
independent text buffer per mode. -/
structure ModeBufferMap where
  normal : String
  select : String
  assign : String
deriving DecidableEq

def ModeBufferMap.get (m : ModeBufferMap) : Mode → String
  | .Normal => m.normal
  | .Select => m.select
  | .Assign => m.assign

def ModeBufferMap.writeChar (m : ModeBufferMap) : Mode → Char → ModeBufferMap
  | .Normal, c => { m with normal := m.normal.push c }
  | .Select, c => { m with select := m.select.push c }
  | .Assign, c => { m with assign := m.assign.push c }

def ModeBufferMap.resetBuffer (m : ModeBufferMap) : Mode → ModeBufferMap
  | .Normal => { m with normal := "" }
  | .Select => { m with select := "" }
  | .Assign => { m with assign := "" }

/-- The scanner state owned by one `Compiler` instance
(src/src/pyvism/compiler.py, `Compiler.__init__`). -/
structure CompilerState where
  file_name : String
  lines : List String
  line_index : Nat
  pos : Nat
  memory_typedefs : List TypeDef
  registers : List Int
  mode : Mode
  assign_type : Option AssignKind
  target_kind : TargetKind
  assign_addr : Int
  mode_buffers : ModeBufferMap
  mode_spos : Nat
  char_escaping : Bool
  bytecode : List Instr
  operations : List Instr
  errors : List Error
deriving DecidableEq

/-- `Compiler.__init__` on a `StringIO` source (name forced to the stand-in
for interactive input), with the source split into lines. -/
def Compiler.init (lines : List String) : CompilerState :=
  { file_name := "<stdin>"
    lines := lines
    line_index := 0
    pos := 0
    memory_typedefs := List.replicate MEMORY_MAX_ADDR (.const .tUnset)
    registers := (List.range REGISTER_MAX_ADDR).map Int.ofNat
    mode := .Normal
    assign_type := Option.none
    target_kind := .Stream
    assign_addr := NULL
    mode_buffers := ⟨"", "", ""⟩
    mode_spos := 0
    char_escaping := false
    bytecode := []
    operations := []
    errors := [] }

def CompilerState.line (s : CompilerState) : String :=
  s.lines.getD s.line_index ""

def CompilerState.lineEnd (s : CompilerState) : Nat :=
  s.line.length

def CompilerState.line_number (s : CompilerState) : Nat :=
  s.line_index + 1

def CompilerState.curChar (s : CompilerState) : Char :=
  s.line.toList.getD s.pos ' '

/-- `Compiler.mode_request` for the program-mode-switch character. -/
def programModeChangeRequest (s : CompilerState) : Bool :=
  s.curChar = PRGM_MODE_CHAR && !s.char_escaping

/-- `Compiler.mode_request` for the macro-switch character. -/
def debugModeRequest (s : CompilerState) : Bool :=
  s.curChar = DEBUG_MODE_CHAR && !s.char_escaping

/-- `Compiler.is_discarded_char`. -/
def isDiscardedChar (s : CompilerState) : Bool :=
  s.mode ≠ Mode.Assign && DISCARDED_CHARS.contains s.curChar

/-- `Compiler.get_target_typedef`: memory targets read the per-address type
record, registers are always integer-typed, streams accept anything (their
Const type is `UnsetType`). The out-of-range memory read (a Python
`IndexError`) is defaulted to the unset Const and is not relied on by any
theorem. -/
def CompilerState.getTargetTypedef (s : CompilerState) : TypeDef :=
  match s.target_kind with
  | .Memory => (pyIdx s.memory_typedefs s.assign_addr).getD (.const .tUnset)
  | .Register => .const .tInt
  | .Stream => .const .tUnset

/-- `Compiler.assign_typecheck`, as the diagnostic it appends on mismatch
(`Option.none` = the `Ok` result). On the closed tagged-union value universe
Python's `isinstance(value, target_type)` is tag equality. -/
def assignTypecheckErr (s : CompilerState) (value : PyVal) : Option Error :=
  let target_typedef := s.getTargetTypedef
  if target_typedef.type = .tUnset then Option.none
  else
    let infos :=
      match target_typedef with
      | .var t ln sp ep =>
        [{ line_number := ln, line := s.lines.getD (ln - 1) "", spos := sp, epos := ep,
           label := "was defined here as " ++ typeName t : InfoLine }]
      | _ => []
    if value.typeOf = target_typedef.type then Option.none
    else some
      { kind := .typErr
        message := "mismatched types"
        file := s.file_name
        errorLine := { line_number := s.line_number, line := s.line, spos := s.mode_spos,
                       epos := s.pos, label := "unmatching type" }
        infos := infos
        hint := some ("expected type " ++ typeName target_typedef.type ++ ", found "
          ++ typeName value.typeOf)
        candidates := [] }

/-- The operand targets of `Compiler.buffer_operation`: the first `args`
register values, read as memory addresses. -/
def operationTargets (s : CompilerState) (mn : Mn) : List Target :=
  (s.registers.take mn.args).map (fun reg => { kind := .Memory, id := reg })

/-- `Compiler.get_targets_typedefs` (out-of-range reads defaulted as in
`getTargetTypedef`). -/
def getTargetsTypedefs (s : CompilerState) (targets : List Target) : List TypeDef :=
  targets.map (fun t => (pyIdx s.memory_typedefs t.id).getD (.const .tUnset))

/-- The operand type tuple checked by `Compiler.buffer_operation`. -/
def opTypesOf (s : CompilerState) (mn : Mn) : List PyType :=
  (getTargetsTypedefs s (operationTargets s mn)).map TypeDef.type

/-- `Compiler.operation_typecheck`: `true` is the `Ok` result. -/
def operationTypecheckOk (mn : Mn) (targets_types : List PyType) : Bool :=
  match op_type_specialization mn with
  | some combinations => (tblLookup combinations targets_types).isSome
  | Option.none => true

/-- Python `", ".join(names[:-1]) + " and " + names[-1]`. -/
def typesListing (names : List String) : String :=
  match names.getLast? with
  | some last => String.intercalate ", " names.dropLast ++ " and " ++ last
  | Option.none => ""

def opTypeErr (s : CompilerState) (mn : Mn) (tds : List TypeDef)
    (listing : String) : Error :=
  { kind := .typErr
    message := "cannot " ++ mn.funcName ++ " " ++ listing
    file := s.file_name
    errorLine := { line_number := s.line_number, line := s.line, spos := s.pos,
                   epos := s.pos + 1, label := "no implementation for " ++ listing }
    infos := (tds.enumFrom 1).filterMap (fun p =>
      match p.2 with
      | .var t ln sp ep => some
        { line_number := ln, line := s.lines.getD (ln - 1) "", spos := sp, epos := ep,
          label := "arg " ++ toString p.1 ++ " was first defined here with type "
            ++ typeName t : InfoLine }
      | _ => Option.none)
    hint := Option.none
    candidates := [] }

/-- The mnemonic actually appended by `Compiler.buffer_operation`:
`mnemonic_type_map[targets_types] or mnemonic` when the mnemonic has a
specialization table (a `None` table value falls back to the generic
mnemonic), the generic mnemonic otherwise. The missing-key case is
unreachable there because the operation type check has already passed. -/
def finalMnemonic (mn : Mn) (types : List PyType) : Mn :=
  match op_type_specialization mn with
  | Option.none => mn
  | some tbl =>
    match tblLookup tbl types with
    | some (some m) => m
    | some Option.none => mn
    | Option.none => mn

/-- `Compiler.buffer_operation`. When the operation type check fails, the
appended diagnostic makes the error list non-empty, so the
`if not self.errors` guard never buffers the operation in that case; when it
succeeds, the operation is buffered only if the error list was empty. -/
def bufferOperation (s : CompilerState) (mn : Mn) : CompilerState :=
  if operationTypecheckOk mn (opTypesOf s mn) then
    if s.errors = [] then
      { s with operations := s.operations ++
          [Instr.mk (finalMnemonic mn (opTypesOf s mn)) ((operationTargets s mn).map Operand.target)] }
    else s
  else
    { s with errors := s.errors ++
        [opTypeErr s mn (getTargetsTypedefs s (operationTargets s mn))
          (typesListing ((opTypesOf s mn).map typeName))] }

def unknownSymbolErr (s : CompilerState) (char : Char) : Error :=
  { kind := .synErr
    message := "unknown symbol " ++ pyRepr (String.singleton char)
    file := s.file_name
    errorLine := { line_number := s.line_number, line := s.line, spos := s.pos,
                   epos := s.pos + 1, label := "unknown symbol" }
    infos := []
    hint := Option.none
    candidates := [] }

/-- `Compiler.process_char` (Normal-mode character handling). The
"did you mean" hint consults `confusable_symbols` from pyvism/constants.py,
which is not under src/ and is modelled as empty (hint always absent). -/
def processChar (s : CompilerState) (char : Char) : CompilerState :=
  match targetKindOfChar char with
  | some k => { s with target_kind := k, mode := .Select }
  | Option.none =>
    match char_map char with
    | some mn => bufferOperation s mn
    | Option.none =>
      if char = '!' then
        { s with bytecode := s.bytecode ++ s.operations, operations := [] }
      else
        { s with errors := s.errors ++ [unknownSymbolErr s char] }

def invalidEscapeErr (s : CompilerState) (char : Char) : Error :=
  { kind := .valErr
    message := "invalid escape character '\\" ++ String.singleton char ++ "'"
    file := s.file_name
    errorLine := { line_number := s.line_number, line := s.line, spos := s.pos - 1,
                   epos := s.pos + 1, label := "invalid escape character" }
    infos := []
    hint := Option.none
    candidates := [] }

/-- `Compiler.escape_char`. On an invalid escape the source returns early, so
`char_escaping` is not cleared. -/
def escapeChar (s : CompilerState) (char : Char) : CompilerState :=
  match ESCAPABLE_CHARS char with
  | Option.none => { s with errors := s.errors ++ [invalidEscapeErr s char] }
  | some decoded =>
    { s with mode_buffers := s.mode_buffers.writeChar s.mode decoded, char_escaping := false }

/-- `Compiler.buffer_char`. -/
def bufferChar (s : CompilerState) (char : Char) : CompilerState :=
  if s.char_escaping then escapeChar s char
  else if char = '\\' ∧ s.mode = .Assign then { s with char_escaping := true }
  else { s with mode_buffers := s.mode_buffers.writeChar s.mode char }

def invalidAddressErr (s : CompilerState) (str_value : String) : Error :=
  { kind := .valErr
    message := "invalid address " ++ pyRepr str_value
    file := s.file_name
    errorLine := { line_number := s.line_number, line := s.line, spos := s.mode_spos,
                   epos := s.pos, label := "invalid address" }
    infos := []
    hint := Option.none
    candidates := [] }

def invalidLiteralErr (s : CompilerState) (str_value : String) : Error :=
  { kind := .valErr
    message := "invalid literal " ++ pyRepr str_value
    file := s.file_name
    errorLine := { line_number := s.line_number, line := s.line, spos := s.mode_spos,
                   epos := s.pos, label := "invalid literal" }
    infos := []
    hint := Option.none
    candidates := [] }

/-- The int payload of a value already type-checked against `Const int`. -/
def PyVal.toInt : PyVal → Int
  | .vInt n => n
  | _ => 0

/-- `Compiler.process_buffered` (flush-buffer), invoked on mode switch and at
end of line. Note that each diagnostic-producing branch returns early,
before the final buffer reset, exactly as the source does. The `Assign` case
with `assign_type` unset raises `RuntimeError` in the source ("supposedly
unreachable"); it is modelled as the identity and not relied on by any
theorem. -/
def processBuffered (s : CompilerState) : CompilerState :=
  match s.mode with
  | .Select =>
    if isValidAddress (s.mode_buffers.get s.mode) then
      { s with assign_addr := hexValue (s.mode_buffers.get s.mode),
               mode_buffers := s.mode_buffers.resetBuffer s.mode }
    else { s with errors := s.errors ++ [invalidAddressErr s (s.mode_buffers.get s.mode)] }
  | .Assign =>
    match s.assign_type with
    | Option.none => s
    | some kind =>
      match evaluate (s.mode_buffers.get s.mode) kind with
      | Option.none => { s with errors := s.errors ++ [invalidLiteralErr s (s.mode_buffers.get s.mode)] }
      | some value =>
        match assignTypecheckErr s value with
        | some e => { s with errors := s.errors ++ [e] }
        | Option.none =>
          match s.target_kind with
          | .Memory =>
            { s with
                memory_typedefs :=
                  pySet s.memory_typedefs s.assign_addr (.var value.typeOf s.line_number s.mode_spos s.pos),
                bytecode := s.bytecode ++
                  [Instr.mk .mov [.target ⟨.Memory, s.assign_addr⟩, .val value]],
                mode_buffers := s.mode_buffers.resetBuffer s.mode }
          | .Register =>
            { s with registers := pySet s.registers s.assign_addr value.toInt,
                     mode_buffers := s.mode_buffers.resetBuffer s.mode }
          | .Stream =>
            { s with
                bytecode := s.bytecode ++
                  [Instr.mk .write [.val (.vInt s.assign_addr), .val (.vStr (pyStr value))]],
                mode_buffers := s.mode_buffers.resetBuffer s.mode }
  | _ => { s with mode_buffers := s.mode_buffers.resetBuffer s.mode }

def unexpectedEolErr (s : CompilerState) (cands : List String) : Error :=
  { kind := .synErr
    message := "unexpected end of line"
    file := s.file_name
    errorLine := { line_number := s.line_number, line := s.line, spos := s.pos,
                   epos := s.pos + 1, label := "expected mode character here" }
    infos := []
    hint := some "try adding one of the following candidates:"
    candidates := cands }

def invalidModeErr (s : CompilerState) (char : Char) : Error :=
  { kind := .valErr
    message := "invalid mode " ++ pyRepr (String.singleton char)
    file := s.file_name
    errorLine := { line_number := s.line_number, line := s.line, spos := s.pos - 1,
                   epos := s.pos + 1, label := "invalid mode" }
    infos := []
    hint := some "try using one of the following candidates:"
    candidates := NS_MODES_keys.map (fun c => "`^" ++ String.singleton c ++ "`") }

/-- `Compiler.change_mode`: read the selector after the mode-switch character
and enter the selected mode (and `AssignKind`). -/
def changeMode (s : CompilerState) : CompilerState :=
  if s.pos = s.lineEnd then
    { s with errors := s.errors ++
        [unexpectedEolErr s (NS_MODES_keys.map (fun c => "`" ++ String.singleton c ++ "`"))] }
  else
    match NS_MODES s.curChar with
    | Option.none => { s with errors := s.errors ++ [invalidModeErr s s.curChar] }
    | some mode =>
      { s with mode := mode, mode_spos := s.pos + 1, assign_type := assignKindOfChar s.curChar }

def macroNotExistErr (s : CompilerState) (char : Char) : Error :=
  { kind := .valErr
    message := "macro '?" ++ String.singleton char ++ "' does not exist"
    file := s.file_name
    errorLine := { line_number := s.line_number, line := s.line, spos := s.pos,
                   epos := s.pos + 1, label := "this macro does not exist" }
    infos := []
    hint := some "Try one of the following candidates:"
    candidates := MacroKindValues.map (fun c => "`?" ++ String.singleton c ++ "`") }

/-- `Compiler.run_macro`: the only macro, "debug", prints the committed
bytecode and does not change compiler state. -/
def runMacroStep (s : CompilerState) : CompilerState :=
  if s.pos = s.lineEnd then
    { s with errors := s.errors ++
        [unexpectedEolErr s (MacroKindValues.map (fun c => "`" ++ String.singleton c ++ "`"))] }
  else if MacroKindValues.contains s.curChar then s
  else { s with errors := s.errors ++ [macroNotExistErr s s.curChar] }

/-- One iteration of the inner character loop of `Compiler.compile`, up to
(but excluding) the per-iteration error check and position increment. -/
def stepChar (s : CompilerState) : CompilerState :=
  if programModeChangeRequest s then
    changeMode { processBuffered s with pos := (processBuffered s).pos + 1 }
  else if debugModeRequest s then
    runMacroStep { processBuffered s with pos := (processBuffered s).pos + 1 }
  else if !isDiscardedChar s then
    if s.mode = Mode.Normal then processChar s s.curChar
    else bufferChar s s.curChar
  else s

/-- The inner `while self.pos < self.end` loop of `Compiler.compile`: process
a character, break if a diagnostic has been appended, otherwise advance. The
fuel bounds the number of iterations; since each iteration advances `pos` by
at least one, `lineEnd - pos` units suffice (see `scanLine_fuel_sufficient`),
and `scanLineFull` supplies exactly that. -/
def scanLine : Nat → CompilerState → CompilerState
  | 0, s => s
  | fuel + 1, s =>
    if s.pos < s.lineEnd then
      if (stepChar s).errors = [] then
        scanLine fuel { stepChar s with pos := (stepChar s).pos + 1 }
      else stepChar s
    else s

def scanLineFull (s : CompilerState) : CompilerState :=
  scanLine (s.lineEnd - s.pos) s

/-- The outer `while self.line_index < len(self.lines)` loop of
`Compiler.compile`: scan the line, break on diagnostics, flush the residual
buffer, advance to the next line. Each iteration advances `line_index` by
exactly one, so `lines.length - line_index` units of fuel are exactly
enough. -/
def compileLoop : Nat → CompilerState → CompilerState
  | 0, s => s
  | fuel + 1, s =>
    if s.line_index < s.lines.length then
      if (scanLineFull s).errors = [] then
        compileLoop fuel { processBuffered (scanLineFull s) with
          line_index := (processBuffered (scanLineFull s)).line_index + 1, pos := 0 }
      else scanLineFull s
    else s

/-- `Compiler.compile` run from a given scanner state (the bytecode list is
cleared on entry, as in the source). -/
def compileFrom (s : CompilerState) : CompilerState :=
  compileLoop (s.lines.length - s.line_index) { s with bytecode := [] }

/-- The final scanner state of compiling a fresh source unit. -/
def compileState (lines : List String) : CompilerState :=
  compileFrom (Compiler.init lines)

/-- `Compiler.compile` on a fresh source unit: the committed bytecode sequence
if no diagnostics were produced, the diagnostics list otherwise. -/
def compile (lines : List String) : Except (List Error) (List Instr) :=
  let sf := compileState lines
  if sf.errors = [] then .ok sf.bytecode else .error sf.errors

/-! ### The virtual machine (src/src/pyvism/vm.py and src/src/pyvism/vm/vm.py) -/

/-- Modelled from the spec: `STREAM_IDS` / `StreamMap.new` live in
pyvism/runtime/builtins.py, not under src/. The spec requires "a map from
stream id to an append-only text buffer, and a cached id for the
standard-output stream"; stdout and stderr buffers are created, with stdout
id 0 (the `NULL` stream id -1 denotes "no target" and has no buffer). -/
def StreamMap.new : List (Int × String) := [(0, ""), (1, "")]

def STREAM_IDS_stdout : Int := 0

/-- Assoc-list update of a stream buffer. -/
def streamsSet : List (Int × String) → Int → String → List (Int × String)
  | [], _, _ => []
  | (k, v) :: rest, fd, nv =>
    if k = fd then (k, nv) :: rest else (k, v) :: streamsSet rest fd nv

/-- `VM.State` from src/src/pyvism/vm.py: memory and its typing array,
registers, stream buffers and the cached stdout id. The extra `hostOut`
component models the text that `flush` has written to the real standard
output (the only external side effect of the VM, per the spec). -/
structure VMState where
  memory : List PyVal
  typing : List PyType
  registers : List Int
  streams : List (Int × String)
  stdout : Int
  hostOut : String
deriving DecidableEq

/-- `VM.State()` with its default factories. -/
def VMState.init : VMState :=
  { memory := List.replicate MEMORY_MAX_ADDR .none
    typing := List.replicate MEMORY_MAX_ADDR .tNone
    registers := (List.range REGISTER_MAX_ADDR).map Int.ofNat
    streams := StreamMap.new
    stdout := STREAM_IDS_stdout
    hostOut := "" }

/-- A runtime fault: the exception kind and message raised by an instruction
transition (`TypeError`, `ValueError`, `RuntimeError`). -/
inductive Fault where
  | typErr (msg : String)
  | valErr (msg : String)
  | runtimeErr (msg : String)
deriving DecidableEq

/-- `InstructionSet._mov_memory`: enforce the address's existing dynamic type
(first write defines it), then store value and update the type record. On the
closed value universe `isinstance(value, slot_type)` is tag equality. The
out-of-range typing read (a Python `IndexError`) is defaulted and not relied
on by any theorem. -/
def movMemory (ms : VMState) (address : Int) (value : PyVal) : Except Fault VMState :=
  let slot_type := (pyIdx ms.typing address).getD .tNone
  if slot_type ≠ .tNone ∧ value.typeOf ≠ slot_type then
    .error (.typErr ("address " ++ toString address ++ ": expected type "
      ++ typeName slot_type ++ ", got " ++ typeName value.typeOf))
  else
    .ok { ms with memory := pySet ms.memory address value,
                  typing := pySet ms.typing address value.typeOf }

/-- `InstructionSet._mov_register`: validate that the value is a legal memory
address before storing it in the register file. -/
def movRegister (ms : VMState) (address : Int) (value : Int) : Except Fault VMState :=
  if ¬ (0 ≤ value ∧ value < (MEMORY_MAX_ADDR : Int)) then
    .error (.valErr (toString value ++ " is not a valid memory address"))
  else .ok { ms with registers := pySet ms.registers address value }

/-- `InstructionSet.mov`: dispatch on the target kind, rejecting the null
target. Operand-shape mismatches (impossible for instructions built by the
mnemonic call protocol) are modelled as a runtime fault. -/
def movFn : VMState → List Operand → Except Fault VMState
  | ms, [.target t, .val v] =>
    if t.id = NULL then .error (.runtimeErr "attempted to write to an invalid address")
    else
      match t.kind with
      | .Memory => movMemory ms t.id v
      | .Register =>
        match v with
        | .vInt n => movRegister ms t.id n
        | _ => .error (.typErr "register value is not an int")
      | .Stream => .error (.valErr "bad instruction 'mov'")
  | _, _ => .error (.runtimeErr "bad operands")

/-- `InstructionSet.write`: append text to the named stream's buffer; a
missing buffer means the stream is closed or unknown. -/
def writeFn : VMState → List Operand → Except Fault VMState
  | ms, [.val (.vInt fd), .val (.vStr value)] =>
    match ms.streams.lookup fd with
    | Option.none => .error (.valErr "file is either closed or does not exist")
    | some buf => .ok { ms with streams := streamsSet ms.streams fd (buf ++ value) }
  | _, _ => .error (.runtimeErr "bad operands")

/-- `InstructionSet.flush`: drain the stdout buffer to the real standard
output (modelled by `hostOut`) and reset it. -/
def flushFn : VMState → List Operand → Except Fault VMState
  | ms, [] =>
    match ms.streams.lookup ms.stdout with
    | Option.none => .error (.valErr "stdout is uninitialized")
    | some buf =>
      .ok { ms with hostOut := ms.hostOut ++ buf,
                    streams := streamsSet ms.streams ms.stdout "" }
  | _, _ => .error (.runtimeErr "bad operands")

/-- The `instruction` dataclass of src/src/pyvism/vm.py: a mnemonic
state-transition function bound to concrete operands. Exceptions raised by
the transition are modelled by the `Except` result. -/
structure instruction where
  mnemonicFn : VMState → List Operand → Except Fault VMState
  operands : List Operand

/-- `instruction.run`. -/
def instruction.run (i : instruction) (ms : VMState) : Except Fault VMState :=
  i.mnemonicFn ms i.operands

/-- `instruction.__rshift__`: the composed instruction runs the first
transition on the incoming operands (which are the composite's, i.e. the
first instruction's, operands), then threads the resulting state into the
second transition applied to the second instruction's own operands. -/
def instruction.rshift (i other : instruction) : instruction :=
  { mnemonicFn := fun ms operands =>
      (i.mnemonicFn ms operands).bind (fun ms1 => other.mnemonicFn ms1 other.operands)
    operands := i.operands }

/-- `InstructionSet.print`: on a set memory source, stringify the value and
run the composition of `write` (to stdout) and `flush`, exactly as the
source builds it with `>>`; a no-op on an unset source. -/
def printFn : VMState → List Operand → Except Fault VMState
  | ms, [.target source] =>
    let v := (pyIdx ms.memory source.id).getD .none
    if v ≠ .none then
      (instruction.rshift
        { mnemonicFn := writeFn, operands := [.val (.vInt ms.stdout), .val (.vStr (pyStr v))] }
        { mnemonicFn := flushFn, operands := [] }).run ms
    else .ok ms
  | _, _ => .error (.runtimeErr "bad operands")

/-- `VM.run` from src/src/pyvism/vm/vm.py: apply the instructions in order;
a fault is caught at the top level and reported (collected in the returned
list, modelling the formatted report to the error stream); in strict mode
execution stops immediately, otherwise it continues with the next
instruction. -/
def VMrun (strict_mode : Bool) : List instruction → VMState → VMState × List Fault
  | [], s => (s, [])
  | instr :: rest, s =>
    match instr.run s with
    | .ok s1 => VMrun strict_mode rest s1
    | .error e =>
      if strict_mode then (s, [e])
      else
        let r := VMrun strict_mode rest s
        (r.1, e :: r.2)

/-- Apply a list of instructions, succeeding only if every one succeeds. -/
def applyAll : List instruction → VMState → Option VMState
  | [], s => some s
  | i :: rest, s =>
    match i.run s with
    | .ok s1 => applyAll rest s1
    | .error _ => Option.none

/-! ### Frame lemmas for the scanner step functions -/

theorem processBuffered_frame (s : CompilerState) :
    (processBuffered s).lines = s.lines ∧ (processBuffered s).line_index = s.line_index ∧
    (processBuffered s).pos = s.pos ∧ (processBuffered s).mode = s.mode := by
  unfold processBuffered
  repeat' split
  all_goals exact ⟨rfl, rfl, rfl, rfl⟩

theorem changeMode_frame (s : CompilerState) :
    (changeMode s).lines = s.lines ∧ (changeMode s).line_index = s.line_index ∧
    (changeMode s).pos = s.pos := by
  unfold changeMode
  repeat' split
  all_goals exact ⟨rfl, rfl, rfl⟩

theorem runMacroStep_frame (s : CompilerState) :
    (runMacroStep s).lines = s.lines ∧ (runMacroStep s).line_index = s.line_index ∧
    (runMacroStep s).pos = s.pos := by
  unfold runMacroStep
  repeat' split
  all_goals exact ⟨rfl, rfl, rfl⟩

theorem bufferOperation_frame (s : CompilerState) (mn : Mn) :
    (bufferOperation s mn).lines = s.lines ∧ (bufferOperation s mn).line_index = s.line_index ∧
    (bufferOperation s mn).pos = s.pos := by
  unfold bufferOperation
  repeat' split
  all_goals exact ⟨rfl, rfl, rfl⟩

theorem processChar_frame (s : CompilerState) (c : Char) :
    (processChar s c).lines = s.lines ∧ (processChar s c).line_index = s.line_index ∧
    (processChar s c).pos = s.pos := by
  unfold processChar
  repeat' split
  all_goals first
    | exact ⟨rfl, rfl, rfl⟩
    | exact bufferOperation_frame s _

theorem bufferChar_frame (s : CompilerState) (c : Char) :
    (bufferChar s c).lines = s.lines ∧ (bufferChar s c).line_index = s.line_index ∧
    (bufferChar s c).pos = s.pos := by
  unfold bufferChar escapeChar
  repeat' split
  all_goals exact ⟨rfl, rfl, rfl⟩

theorem stepChar_frame (s : CompilerState) :
    (stepChar s).lines = s.lines ∧ (stepChar s).line_index = s.line_index ∧
    s.pos ≤ (stepChar s).pos := by
  unfold stepChar
  split
  · obtain ⟨h1, h2, h3, _⟩ := processBuffered_frame s
    obtain ⟨g1, g2, g3⟩ :=
      changeMode_frame { processBuffered s with pos := (processBuffered s).pos + 1 }
    refine ⟨?_, ?_, ?_⟩
    · rw [g1]; exact h1
    · rw [g2]; exact h2
    · rw [g3]
      show s.pos ≤ (processBuffered s).pos + 1
      omega
  split
  · obtain ⟨h1, h2, h3, _⟩ := processBuffered_frame s
    obtain ⟨g1, g2, g3⟩ :=
      runMacroStep_frame { processBuffered s with pos := (processBuffered s).pos + 1 }
    refine ⟨?_, ?_, ?_⟩
    · rw [g1]; exact h1
    · rw [g2]; exact h2
    · rw [g3]
      show s.pos ≤ (processBuffered s).pos + 1
      omega
  split
  · split
    · obtain ⟨h1, h2, h3⟩ := processChar_frame s s.curChar
      exact ⟨h1, h2, le_of_eq h3.symm⟩
    · obtain ⟨h1, h2, h3⟩ := bufferChar_frame s s.curChar
      exact ⟨h1, h2, le_of_eq h3.symm⟩
  · exact ⟨rfl, rfl, le_refl _⟩

theorem stepChar_lineEnd (s : CompilerState) : (stepChar s).lineEnd = s.lineEnd := by
  obtain ⟨h1, h2, _⟩ := stepChar_frame s
  simp [CompilerState.lineEnd, CompilerState.line, h1, h2]

/-- Justification of the fuel choice in `scanLineFull`: with `lineEnd - pos`
units of fuel, the inner loop only stops at end of line or on a diagnostic,
exactly as the Python `while` loop does. -/
theorem scanLine_fuel_sufficient :
    ∀ (fuel : Nat) (s : CompilerState), s.lineEnd - s.pos ≤ fuel →
    (scanLine fuel s).lineEnd ≤ (scanLine fuel s).pos ∨ (scanLine fuel s).errors ≠ [] := by
  intro fuel
  induction fuel with
  | zero =>
    intro s h
    left
    simp only [scanLine]
    omega
  | succ n ih =>
    intro s h
    rw [scanLine]
    split
    · rename_i hpos
      split
      · apply ih
        have he := stepChar_lineEnd s
        have hf := (stepChar_frame s).2.2
        show (stepChar s).lineEnd - ((stepChar s).pos + 1) ≤ n
        rw [he]
        omega
      · right
        assumption
    · left
      omega

theorem scanLine_frame (fuel : Nat) (s : CompilerState) :
    (scanLine fuel s).lines = s.lines ∧ (scanLine fuel s).line_index = s.line_index := by
  induction fuel generalizing s with
  | zero => exact ⟨rfl, rfl⟩
  | succ n ih =>
    rw [scanLine]
    split
    · split
      · obtain ⟨a1, a2⟩ := ih { stepChar s with pos := (stepChar s).pos + 1 }
        obtain ⟨b1, b2, _⟩ := stepChar_frame s
        exact ⟨by rw [a1]; exact b1, by rw [a2]; exact b2⟩
      · exact ⟨(stepChar_frame s).1, (stepChar_frame s).2.1⟩
    · exact ⟨rfl, rfl⟩

/-! ### Diagnostic-growth lemmas: every helper appends its diagnostics at the
end of the error list, at most one per helper, at most two per character
step. -/

theorem processBuffered_errors (s : CompilerState) :
    ∃ t, (processBuffered s).errors = s.errors ++ t ∧ t.length ≤ 1 := by
  unfold processBuffered
  repeat' split
  all_goals first
    | exact ⟨[], (List.append_nil _).symm, Nat.zero_le 1⟩
    | exact ⟨_, rfl, Nat.le_refl 1⟩

theorem changeMode_errors (s : CompilerState) :
    ∃ t, (changeMode s).errors = s.errors ++ t ∧ t.length ≤ 1 := by
  unfold changeMode
  repeat' split
  all_goals first
    | exact ⟨[], (List.append_nil _).symm, Nat.zero_le 1⟩
    | exact ⟨_, rfl, Nat.le_refl 1⟩

theorem runMacroStep_errors (s : CompilerState) :
    ∃ t, (runMacroStep s).errors = s.errors ++ t ∧ t.length ≤ 1 := by
  unfold runMacroStep
  repeat' split
  all_goals first
    | exact ⟨[], (List.append_nil _).symm, Nat.zero_le 1⟩
    | exact ⟨_, rfl, Nat.le_refl 1⟩

theorem bufferOperation_errors (s : CompilerState) (mn : Mn) :
    ∃ t, (bufferOperation s mn).errors = s.errors ++ t ∧ t.length ≤ 1 := by
  unfold bufferOperation
  repeat' split
  all_goals first
    | exact ⟨[], (List.append_nil _).symm, Nat.zero_le 1⟩
    | exact ⟨_, rfl, Nat.le_refl 1⟩

theorem processChar_errors (s : CompilerState) (c : Char) :
    ∃ t, (processChar s c).errors = s.errors ++ t ∧ t.length ≤ 1 := by
  unfold processChar
  repeat' split
  all_goals first
    | exact ⟨[], (List.append_nil _).symm, Nat.zero_le 1⟩
    | exact ⟨_, rfl, Nat.le_refl 1⟩
    | exact bufferOperation_errors s _

theorem bufferChar_errors (s : CompilerState) (c : Char) :
    ∃ t, (bufferChar s c).errors = s.errors ++ t ∧ t.length ≤ 1 := by
  unfold bufferChar escapeChar
  repeat' split
  all_goals first
    | exact ⟨[], (List.append_nil _).symm, Nat.zero_le 1⟩
    | exact ⟨_, rfl, Nat.le_refl 1⟩

theorem stepChar_errors (s : CompilerState) :
    ∃ t, (stepChar s).errors = s.errors ++ t ∧ t.length ≤ 2 := by
  unfold stepChar
  split
  · obtain ⟨t1, h1, l1⟩ := processBuffered_errors s
    obtain ⟨t2, h2, l2⟩ :=
      changeMode_errors { processBuffered s with pos := (processBuffered s).pos + 1 }
    refine ⟨t1 ++ t2, ?_, ?_⟩
    · rw [h2]
      show (processBuffered s).errors ++ t2 = s.errors ++ (t1 ++ t2)
      rw [h1, List.append_assoc]
    · simp only [List.length_append]
      omega
  split
  · obtain ⟨t1, h1, l1⟩ := processBuffered_errors s
    obtain ⟨t2, h2, l2⟩ :=
      runMacroStep_errors { processBuffered s with pos := (processBuffered s).pos + 1 }
    refine ⟨t1 ++ t2, ?_, ?_⟩
    · rw [h2]
      show (processBuffered s).errors ++ t2 = s.errors ++ (t1 ++ t2)
      rw [h1, List.append_assoc]
    · simp only [List.length_append]
      omega
  split
  · split
    · obtain ⟨t, h, l⟩ := processChar_errors s s.curChar
      exact ⟨t, h, by omega⟩
    · obtain ⟨t, h, l⟩ := bufferChar_errors s s.curChar
      exact ⟨t, h, by omega⟩
  · exact ⟨[], (List.append_nil _).symm, Nat.zero_le 2⟩

theorem scanLine_errors (fuel : Nat) (s : CompilerState) :
    ∃ t, (scanLine fuel s).errors = s.errors ++ t ∧ t.length ≤ 2 := by
  induction fuel generalizing s with
  | zero => exact ⟨[], (List.append_nil _).symm, Nat.zero_le 2⟩
  | succ n ih =>
    rw [scanLine]
    split
    · obtain ⟨t1, h1, l1⟩ := stepChar_errors s
      split
      · rename_i hempty
        rw [h1] at hempty
        have hs : s.errors = [] := (List.append_eq_nil.mp hempty).1
        obtain ⟨t2, h2, l2⟩ := ih { stepChar s with pos := (stepChar s).pos + 1 }
        refine ⟨t2, ?_, l2⟩
        rw [h2]
        show (stepChar s).errors ++ t2 = s.errors ++ t2
        rw [h1, hs]
        simp [List.append_eq_nil.mp hempty |>.2]
      · exact ⟨t1, h1, l1⟩
    · exact ⟨[], (List.append_nil _).symm, Nat.zero_le 2⟩

theorem compileLoop_errors_le (fuel : Nat) :
    ∀ s : CompilerState, s.errors.length ≤ 1 → (compileLoop fuel s).errors.length ≤ 3 := by
  induction fuel with
  | zero =>
    intro s h
    show s.errors.length ≤ 3
    omega
  | succ n ih =>
    intro s h
    rw [compileLoop]
    split
    · obtain ⟨t, ht, lt⟩ := scanLine_errors (s.lineEnd - s.pos) s
      split
      · rename_i hempty
        obtain ⟨t2, ht2, lt2⟩ := processBuffered_errors (scanLineFull s)
        apply ih
        show (processBuffered (scanLineFull s)).errors.length ≤ 1
        rw [ht2, hempty]
        simpa using lt2
      · show (scanLineFull s).errors.length ≤ 3
        show (scanLine (s.lineEnd - s.pos) s).errors.length ≤ 3
        rw [ht]
        simp only [List.length_append]
        omega
    · omega

theorem processBuffered_errors_len (s : CompilerState) :
    (processBuffered s).errors.length ≤ s.errors.length + 1 := by
  obtain ⟨t, ht, lt⟩ := processBuffered_errors s
  rw [ht]
  simp only [List.length_append]
  omega

/-- Justification of the fuel choice in `compileFrom`: with
`lines.length - line_index` units of fuel, the outer loop only stops past the
last line or on a diagnostic, exactly as the Python `while` loop does. -/
theorem compileLoop_fuel_sufficient :
    ∀ (fuel : Nat) (s : CompilerState), s.lines.length - s.line_index ≤ fuel →
    (compileLoop fuel s).lines.length ≤ (compileLoop fuel s).line_index ∨
      (compileLoop fuel s).errors ≠ [] := by
  intro fuel
  induction fuel with
  | zero =>
    intro s h
    left
    show s.lines.length ≤ s.line_index
    omega
  | succ n ih =>
    intro s h
    rw [compileLoop]
    split
    · rename_i hidx
      split
      · apply ih
        obtain ⟨sl1, sl2⟩ := scanLine_frame (s.lineEnd - s.pos) s
        obtain ⟨pb1, pb2, _, _⟩ := processBuffered_frame (scanLineFull s)
        show (processBuffered (scanLineFull s)).lines.length -
          ((processBuffered (scanLineFull s)).line_index + 1) ≤ n
        rw [pb1, pb2]
        unfold scanLineFull
        rw [sl1, sl2]
        omega
      · right
        assumption
    · left
      omega

/-! ### Python list subscription lemmas -/

theorem length_pySet (l : List α) (i : Int) (v : α) : (pySet l i v).length = l.length := by
  unfold pySet
  split <;> simp

theorem physIdx_lt {len : Nat} {i : Int} {n : Nat} (h : physIdx len i = some n) : n < len := by
  unfold physIdx at h
  split at h
  · simp at h
    omega
  · split at h
    · simp at h
      omega
    · exact absurd h (by simp)

theorem pySet_none (l : List α) (i : Int) (v : α) (h : physIdx l.length i = Option.none) :
    pySet l i v = l := by
  unfold pySet
  rw [h]

theorem pySet_some (l : List α) (i : Int) (v : α) (n : Nat)
    (h : physIdx l.length i = some n) : pySet l i v = l.set n v := by
  unfold pySet
  rw [h]

theorem pyIdx_pySet (l : List α) (i j : Int) (v : α) :
    pyIdx (pySet l i v) j =
      if physIdx l.length i = physIdx l.length j ∧ (physIdx l.length i).isSome
      then some v else pyIdx l j := by
  cases h1 : physIdx l.length i with
  | none =>
    rw [pySet_none l i v h1]
    simp [h1]
  | some n =>
    rw [pySet_some l i v n h1]
    unfold pyIdx
    rw [List.length_set]
    cases h2 : physIdx l.length j with
    | none => simp [h1, h2]
    | some m =>
      by_cases hnm : n = m
      · subst hnm
        simp [h1, h2, List.getElem?_set_eq_of_lt _ (physIdx_lt h1)]
      · simp [h1, h2, hnm, List.getElem?_set_ne hnm]

/-! ### Additional shared helper lemmas -/

theorem bufferOperation_bytecode (s : CompilerState) (mn : Mn) :
    (bufferOperation s mn).bytecode = s.bytecode := by
  unfold bufferOperation
  repeat' split
  all_goals rfl

theorem resetBuffer_get (m : ModeBufferMap) (mo : Mode) :
    (m.resetBuffer mo).get mo = "" := by
  cases mo <;> rfl

/-- Characterization of the assignment type check: the value passes exactly
when the target's recorded type is unset, or its runtime type equals the
recorded type. -/
theorem assignTypecheckErr_eq_none (s : CompilerState) (v : PyVal) :
    assignTypecheckErr s v = Option.none ↔
      (s.getTargetTypedef.type = PyType.tUnset ∨ v.typeOf = s.getTargetTypedef.type) := by
  by_cases h1 : s.getTargetTypedef.type = PyType.tUnset
  · simp [assignTypecheckErr, h1]
  · by_cases h2 : v.typeOf = s.getTargetTypedef.type
    · simp [assignTypecheckErr, h1, h2]
    · simp only [assignTypecheckErr, if_neg h1, if_neg h2]
      constructor
      · intro h
        split at h <;> simp_all
      · intro h
        rcases h with h | h
        · exact absurd h h1
        · exact absurd h h2

theorem tblLookup_mem {tbl : List (List PyType × Option Mn)} {t : List PyType}
    {v : Option Mn} (h : tblLookup tbl t = some v) : (t, v) ∈ tbl := by
  induction tbl with
  | nil => exact absurd h (by simp [tblLookup])
  | cons p rest ih =>
    rw [tblLookup] at h
    split at h
    · rename_i hk
      simp only [Option.some_inj] at h
      subst h
      subst hk
      exact List.mem_cons_self _ _
    · exact List.mem_cons_of_mem _ (ih h)

/-- In the modelled specialization tables, every entry maps its operand type
tuple to a concrete specialized mnemonic, never to the generic one and never
to a `None` fall-through. -/
theorem specialization_values {mn : Mn} {tbl : List (List PyType × Option Mn)}
    (h : op_type_specialization mn = some tbl) :
    ∀ p ∈ tbl, ∃ m, p.2 = some m ∧ m ≠ mn := by
  cases mn <;> simp only [op_type_specialization, Option.some_inj, reduceCtorEq] at h <;>
    first
      | exact absurd h (by simp)
      | (subst h; decide)

/-! ### C1 -/

/-- C1 counterexample: the claim says a unit with an error on line 1 and
another detectable error on line 2 reports only line 1's diagnostic. Compiling
the unit with line 1 `&zz` (invalid address, diagnosed by the end-of-line
buffer flush) and line 2 `^` yields three diagnostics, the last two on
line 2: the end-of-line-flush diagnostic is only detected after the first
character of line 2 has been processed. -/
theorem C1_counterexample :
    (compileState ["&zz", "^"]).errors.map (fun e => e.errorLine.line_number) = [1, 2, 2] := by
  decide

/-- C1 (amended): a diagnostic appended while processing a character stops the
inner scan before the next character of that line, but a single mode-switch or
macro step can append two diagnostics, and a diagnostic appended by the
end-of-line buffer flush is only detected after the first character of the
next line has been processed (which can append two more); consequently every
compilation reports at most 3 diagnostics, and a unit whose line-1 error
arises from ordinary character processing with another detectable error on
line 2 reports only line 1's single diagnostic. -/
theorem C1_halting_amended :
    (∀ lines : List String, (compileState lines).errors.length ≤ 3) ∧
    (compileState ["€", "€"]).errors.map (fun e => e.errorLine.line_number) = [1] := by
  constructor
  · intro lines
    unfold compileState compileFrom
    apply compileLoop_errors_le
    exact Nat.zero_le 1
  · decide

/-! ### C2 -/

/-- C2 counterexample: the claim says a value matches a `Const` or unset
target type unconditionally. Compiling `$0^sa` (assign the string "a" to
register 0) selects a Register target, whose type descriptor is the constant
`Const int`; the assignment nevertheless fails the type check with a
"mismatched types" diagnostic, so a `Const` type is not matched
unconditionally. -/
theorem C2_counterexample :
    (compileState ["$0^sa"]).getTargetTypedef = TypeDef.const PyType.tInt ∧
    (compileState ["$0^sa"]).errors.map (fun e => (e.kind, e.message, e.hint)) =
      [(ErrKind.typErr, "mismatched types", some "expected type int, found str")] := by
  exact ⟨by decide, by decide⟩

/-- C2 (amended): for every assignment type check, the value matches when the
target's recorded type is `UnsetType` (unset memory addresses and stream
targets) unconditionally, and matches any other recorded type — the register
targets' `Const int` as well as a `Var` type — if and only if the value's
runtime type equals the recorded type exactly (no subtype or implicit
widening on the closed tagged-union value universe); operator operand checks
use specialization-table membership instead of this relation. -/
theorem C2_typecheck_amended (s : CompilerState) (v : PyVal) :
    (assignTypecheckErr s v = Option.none ↔
      (s.getTargetTypedef.type = PyType.tUnset ∨ v.typeOf = s.getTargetTypedef.type)) ∧
    (∀ (mn : Mn) (tbl : List (List PyType × Option Mn)) (types : List PyType),
      op_type_specialization mn = some tbl →
      (operationTypecheckOk mn types = true ↔ (tblLookup tbl types).isSome = true)) := by
  constructor
  · exact assignTypecheckErr_eq_none s v
  · intro mn tbl types h
    simp [operationTypecheckOk, h]

/-! ### C4 -/

/-- C4 counterexample: the claim says the active mode's buffer is empty after
every flush-buffer invocation, including on an invalid address literal.
Compiling `&zz` ends with the end-of-line flush diagnosing the invalid
address `zz`, and the final state (reached immediately after that
`process_buffered` invocation) still holds `"zz"` in the active `Select`
buffer: the error path returns before the reset. -/
theorem C4_counterexample :
    (compileState ["&zz"]).mode = Mode.Select ∧
    (compileState ["&zz"]).mode_buffers.get Mode.Select = "zz" ∧
    (compileState ["&zz"]).errors ≠ [] := by
  exact ⟨by decide, by decide, by decide⟩

/-- C4 (amended): the flush-buffer step resets the active mode's buffer
whenever it completes without appending a diagnostic (successful parse and
the no-op modes); on the diagnostic outcomes (invalid address literal,
invalid value literal, type-check failure) it returns early and the buffer
retains its content. -/
theorem C4_reset_amended (s : CompilerState)
    (h : s.mode = Mode.Assign → s.assign_type ≠ Option.none)
    (h2 : (processBuffered s).errors = s.errors) :
    (processBuffered s).mode_buffers.get s.mode = "" := by
  cases hm : s.mode with
  | Normal =>
    simp only [processBuffered, hm]
    exact resetBuffer_get _ _
  | Select =>
    simp only [processBuffered, hm] at h2 ⊢
    by_cases hv : isValidAddress (s.mode_buffers.get Mode.Select)
    · simp only [if_pos hv]
      exact resetBuffer_get _ _
    · rw [if_neg hv] at h2
      exfalso
      have := congrArg List.length h2
      simp at this
  | Assign =>
    simp only [processBuffered, hm] at h2 ⊢
    cases ha : s.assign_type with
    | none => exact absurd ha (h hm)
    | some kind =>
      simp only [ha] at h2 ⊢
      cases he : evaluate (s.mode_buffers.get Mode.Assign) kind with
      | none =>
        exfalso
        try simp only [he] at h2
        have := congrArg List.length h2
        simp at this
      | some value =>
        try simp only [he] at h2 ⊢
        cases ht : assignTypecheckErr s value with
        | some e =>
          exfalso
          try simp only [ht] at h2
          have := congrArg List.length h2
          simp at this
        | none =>
          try simp only [ht]
          cases hk : s.target_kind <;> try simp only [hk]
          all_goals exact resetBuffer_get _ _

theorem pyIdx_congr (l : List α) {i j : Int} (h : physIdx l.length i = physIdx l.length j) :
    pyIdx l i = pyIdx l j := by
  unfold pyIdx
  rw [h]

/-! ### C3 -/

/-- C3 counterexample: the claim says a later assignment of a different
runtime type fails with a type error whose informational annotation
references the original (first) assignment that established the type.
Compiling `&0^i5` then `&0^i6` then `&0^sa` (two successful integer
assignments to address 0, then a string), the original assignment is on
line 1, but the type error's informational annotation references line 2: the
type record's source span is refreshed on every successful assignment. -/
theorem C3_counterexample :
    (compileState ["&0^i5^n", "&0^i6^n", "&0^sa"]).bytecode =
      [Instr.mk .mov [.target ⟨.Memory, 0⟩, .val (.vInt 5)],
       Instr.mk .mov [.target ⟨.Memory, 0⟩, .val (.vInt 6)]] ∧
    (compileState ["&0^i5^n", "&0^i6^n", "&0^sa"]).errors.map
      (fun e => (e.kind, e.infos.map (fun i => i.line_number))) =
      [(ErrKind.typErr, [2])] := by
  exact ⟨by decide, by decide⟩

/-- C3 (amended): the first successful assignment fixes the address's dynamic
type — once a memory address's recorded type is a non-unset type `t`, every
flush-buffer step preserves it (a mismatching assignment only appends a
diagnostic, a matching one rewrites the same type) — but the type error's
informational annotation references the source location of the most recent
successful assignment to that address, not necessarily the original one: the
type record after `&0^i5` / `&0^i6` carries line 2's span. -/
theorem C3_type_fixed_amended (s : CompilerState) (a : Int) (t : PyType)
    (h1 : ((pyIdx s.memory_typedefs a).getD (.const .tUnset)).type = t)
    (h2 : t ≠ PyType.tUnset) :
    ((pyIdx (processBuffered s).memory_typedefs a).getD (.const .tUnset)).type = t ∧
    pyIdx (compileState ["&0^i5^n", "&0^i6^n"]).memory_typedefs 0 =
      some (TypeDef.var PyType.tInt 2 4 5) := by
  refine ⟨?_, by decide⟩
  cases hm : s.mode with
  | Normal =>
    simp only [processBuffered, hm]
    exact h1
  | Select =>
    simp only [processBuffered, hm]
    split <;> exact h1
  | Assign =>
    simp only [processBuffered, hm]
    cases ha : s.assign_type with
    | none => exact h1
    | some kind =>
      try simp only [ha]
      cases he : evaluate (s.mode_buffers.get Mode.Assign) kind with
      | none => exact h1
      | some value =>
        try simp only [he]
        cases ht : assignTypecheckErr s value with
        | some e => exact h1
        | none =>
          try simp only [ht]
          cases hk : s.target_kind with
          | Register => try simp only [hk]; exact h1
          | Stream => try simp only [hk]; exact h1
          | Memory =>
            try simp only [hk]
            show ((pyIdx (pySet s.memory_typedefs s.assign_addr
              (TypeDef.var value.typeOf s.line_number s.mode_spos s.pos)) a).getD
                (.const .tUnset)).type = t
            rw [pyIdx_pySet]
            split
            · rename_i hc
              have hok := (assignTypecheckErr_eq_none s value).mp ht
              unfold CompilerState.getTargetTypedef at hok
              rw [hk] at hok
              have hEq : pyIdx s.memory_typedefs s.assign_addr = pyIdx s.memory_typedefs a :=
                pyIdx_congr s.memory_typedefs hc.1
              rw [hEq, h1] at hok
              show value.typeOf = t
              rcases hok with hu | hv
              · exact absurd hu h2
              · exact hv
            · exact h1

/-! ### C5 -/

/-- C5: the batch-commit protocol. Buffering an operator never touches the
committed bytecode; the commit character moves every pending operation into
the bytecode and clears the pending list; and concretely, compiling two
integer assignments followed by `+` without a commit yields only the two
`mov` instructions (the pending specialized addition stays in the pending
list and does not reach the result), while the same program with `+!` ends
with the committed addition. -/
theorem C5_batch_commit (s : CompilerState) (c : Char) (mn : Mn)
    (h1 : char_map c = some mn) (h2 : targetKindOfChar c = Option.none) :
    (processChar s c).bytecode = s.bytecode ∧
    ((processChar s '!').bytecode = s.bytecode ++ s.operations ∧
      (processChar s '!').operations = []) ∧
    compile ["&0^i1^n", "&1^i2^n", "+"] =
      Except.ok [Instr.mk .mov [.target ⟨.Memory, 0⟩, .val (.vInt 1)],
        Instr.mk .mov [.target ⟨.Memory, 1⟩, .val (.vInt 2)]] ∧
    (compileState ["&0^i1^n", "&1^i2^n", "+"]).operations =
      [Instr.mk .addInt [.target ⟨.Memory, 0⟩, .target ⟨.Memory, 1⟩]] ∧
    compile ["&0^i1^n", "&1^i2^n", "+!"] =
      Except.ok [Instr.mk .mov [.target ⟨.Memory, 0⟩, .val (.vInt 1)],
        Instr.mk .mov [.target ⟨.Memory, 1⟩, .val (.vInt 2)],
        Instr.mk .addInt [.target ⟨.Memory, 0⟩, .target ⟨.Memory, 1⟩]] := by
  refine ⟨?_, ⟨rfl, rfl⟩, by rfl, by decide, by rfl⟩
  simp only [processChar, h1, h2]
  exact bufferOperation_bytecode s mn

/-! ### C6 -/

/-- C6: for every operator mnemonic with a type-specialization table, an
operand type tuple absent from the table fails with a single type error and
buffers nothing, while a tuple present in the table buffers the table's
specialized mnemonic — never the generic one — bound to the current operand
memory targets. -/
theorem C6_specialization (s : CompilerState) (mn : Mn)
    (tbl : List (List PyType × Option Mn))
    (h1 : op_type_specialization mn = some tbl) (h2 : s.errors = []) :
    (tblLookup tbl (opTypesOf s mn) = Option.none →
      (bufferOperation s mn).operations = s.operations ∧
      ∃ e, (bufferOperation s mn).errors = [e] ∧ e.kind = ErrKind.typErr) ∧
    (∀ m : Mn, tblLookup tbl (opTypesOf s mn) = some (some m) →
      m ≠ mn ∧ (bufferOperation s mn).errors = [] ∧
      (bufferOperation s mn).operations =
        s.operations ++ [Instr.mk m ((operationTargets s mn).map Operand.target)]) := by
  constructor
  · intro hnone
    have hck : operationTypecheckOk mn (opTypesOf s mn) = false := by
      simp [operationTypecheckOk, h1, hnone]
    refine ⟨by simp [bufferOperation, hck], ?_⟩
    refine ⟨opTypeErr s mn (getTargetsTypedefs s (operationTargets s mn))
      (typesListing ((opTypesOf s mn).map typeName)), ?_, rfl⟩
    simp [bufferOperation, hck, h2]
  · intro m hsome
    have hck : operationTypecheckOk mn (opTypesOf s mn) = true := by
      simp [operationTypecheckOk, h1, hsome]
    have hfm : finalMnemonic mn (opTypesOf s mn) = m := by
      simp [finalMnemonic, h1, hsome]
    refine ⟨?_, ?_, ?_⟩
    · obtain ⟨m2, hm2, hne⟩ := specialization_values h1 _ (tblLookup_mem hsome)
      simp only [Option.some_inj] at hm2
      subst hm2
      exact hne
    · simp [bufferOperation, hck, h2]
    · rw [← hfm]
      simp [bufferOperation, hck, h2]

/-! ### C7 -/

theorem VMrun_append_ok (strict : Bool) :
    ∀ (pre : List instruction) (s s1 : VMState) (l : List instruction),
    applyAll pre s = some s1 → VMrun strict (pre ++ l) s = VMrun strict l s1 := by
  intro pre
  induction pre with
  | nil =>
    intro s s1 l h
    simp only [applyAll, Option.some_inj] at h
    rw [h]
    rfl
  | cons i rest ih =>
    intro s s1 l h
    rw [applyAll] at h
    rw [List.cons_append, VMrun]
    cases hr : i.run s with
    | ok s2 =>
      rw [hr] at h
      exact ih s2 s1 l h
    | error e =>
      rw [hr] at h
      exact absurd h (by simp)

/-- C7: runtime fault isolation. For every bytecode sequence split as
`pre ++ bad :: rest` where every instruction of `pre` applies successfully
and `bad` faults: the fault is caught and reported (collected, never
crashing — the run function is total); in strict mode execution stops
immediately and the final state is the state reached after the last
successfully applied instruction, with `rest` unexecuted; in lenient mode
the fault is reported and execution continues with `rest` from that same
state; and a fault-free sequence reports nothing. -/
theorem C7_fault_isolation (pre rest : List instruction) (i : instruction)
    (s s1 : VMState) (e : Fault)
    (h1 : applyAll pre s = some s1) (h2 : i.run s1 = Except.error e) :
    VMrun true (pre ++ i :: rest) s = (s1, [e]) ∧
    VMrun false (pre ++ i :: rest) s =
      ((VMrun false rest s1).1, e :: (VMrun false rest s1).2) ∧
    (∀ (bc : List instruction) (s2 sf : VMState) (m : Bool),
      applyAll bc s2 = some sf → VMrun m bc s2 = (sf, [])) := by
  refine ⟨?_, ?_, ?_⟩
  · rw [VMrun_append_ok true pre s s1 (i :: rest) h1, VMrun, h2]
    rfl
  · rw [VMrun_append_ok false pre s s1 (i :: rest) h1, VMrun, h2]
    rfl
  · intro bc
    induction bc with
    | nil =>
      intro s2 sf m h
      simp only [applyAll, Option.some_inj] at h
      rw [h]
      rfl
    | cons j rest2 ih =>
      intro s2 sf m h
      rw [applyAll] at h
      rw [VMrun]
      cases hr : j.run s2 with
      | ok s3 =>
        rw [hr] at h
        exact ih s3 sf m h
      | error e2 =>
        rw [hr] at h
        exact absurd h (by simp)

/-! ### C8 -/

/-- C8: instruction composition. For all instructions `a`, `b` and every
state, `(a >> b).run` threads the state of `a`'s transition (on the
composite's operands, which are exactly `a`'s) into `b`'s transition on `b`'s
own operands, faults propagating; and `print` on a set memory source runs
exactly the `write`-to-stdout-then-`flush` composition on the stringified
value. -/
theorem C8_composition (a b : instruction) (ms : VMState) (source : Target) (v : PyVal)
    (h1 : pyIdx ms.memory source.id = some v) (h2 : v ≠ PyVal.none) :
    (a.rshift b).run ms = (a.run ms).bind (fun ms1 => b.run ms1) ∧
    (a.rshift b).operands = a.operands ∧
    printFn ms [Operand.target source] =
      (writeFn ms [.val (.vInt ms.stdout), .val (.vStr (pyStr v))]).bind
        (fun ms1 => flushFn ms1 []) := by
  refine ⟨rfl, rfl, ?_⟩
  simp only [printFn, h1, Option.getD_some, if_pos h2]
  rfl

/-! ### C9 -/

/-- C9: register defaults. A freshly initialized compiler's register file is
the identity mapping; with the identity register file, buffering an operator
of arity 2 resolves its operand memory addresses to 0 and 1; and no scanner
step other than a flush-buffer step on a Register target ever modifies the
register file, so any compilation with no register assignment keeps the
identity mapping. -/
theorem C9_register_defaults (lines : List String) (s : CompilerState) (mn : Mn)
    (h1 : s.registers = (List.range REGISTER_MAX_ADDR).map Int.ofNat)
    (h2 : mn.args = 2) :
    (Compiler.init lines).registers = (List.range REGISTER_MAX_ADDR).map Int.ofNat ∧
    operationTargets s mn = [⟨.Memory, 0⟩, ⟨.Memory, 1⟩] ∧
    (∀ (s2 : CompilerState) (c : Char), (processChar s2 c).registers = s2.registers) ∧
    (∀ (s2 : CompilerState) (c : Char), (bufferChar s2 c).registers = s2.registers) ∧
    (∀ s2 : CompilerState, (changeMode s2).registers = s2.registers) ∧
    (∀ s2 : CompilerState, (runMacroStep s2).registers = s2.registers) ∧
    (∀ s2 : CompilerState, s2.target_kind ≠ TargetKind.Register →
      (processBuffered s2).registers = s2.registers) := by
  refine ⟨rfl, ?_, ?_, ?_, ?_, ?_, ?_⟩
  · unfold operationTargets
    rw [h1, h2]
    decide
  · intro s2 c
    unfold processChar bufferOperation
    repeat' split
    all_goals rfl
  · intro s2 c
    unfold bufferChar escapeChar
    repeat' split
    all_goals rfl
  · intro s2
    unfold changeMode
    repeat' split
    all_goals rfl
  · intro s2
    unfold runMacroStep
    repeat' split
    all_goals rfl
  · intro s2 hk
    unfold processBuffered
    repeat' split
    all_goals first
      | rfl
      | simp_all

/-! ### C10 -/

/-- C10: at compile time, an assignment of any integer value to a Register
target produces no diagnostic, emits no instruction, and writes the value
into the register file, with no range validation; the VM's register `mov`
rejects any value outside the memory address range at runtime; and the
compiled unit `$0^i-1` / `p!` commits a `print` operator instruction whose
operand memory address is -1, which is not a valid memory address. -/
theorem C10_register_range (s : CompilerState) (v : Int)
    (h1 : s.mode = Mode.Assign) (h2 : s.assign_type = some AssignKind.Integer)
    (h3 : s.target_kind = TargetKind.Register)
    (h4 : evaluate (s.mode_buffers.get Mode.Assign) AssignKind.Integer =
      some (PyVal.vInt v)) :
    ((processBuffered s).errors = s.errors ∧
     (processBuffered s).registers = pySet s.registers s.assign_addr v ∧
     (processBuffered s).bytecode = s.bytecode) ∧
    (∀ (ms : VMState) (addr w : Int), ¬ (0 ≤ w ∧ w < (MEMORY_MAX_ADDR : Int)) →
      movRegister ms addr w =
        Except.error (Fault.valErr (toString w ++ " is not a valid memory address"))) ∧
    (compileState ["$0^i-1^n", "p!"]).errors = [] ∧
    (compileState ["$0^i-1^n", "p!"]).bytecode = [Instr.mk .print [.target ⟨.Memory, -1⟩]] ∧
    ¬ (0 ≤ (-1 : Int) ∧ (-1 : Int) < (MEMORY_MAX_ADDR : Int)) := by
  have hok : assignTypecheckErr s (PyVal.vInt v) = Option.none := by
    rw [assignTypecheckErr_eq_none]
    right
    unfold CompilerState.getTargetTypedef
    rw [h3]
    rfl
  refine ⟨?_, ?_, by decide, by decide, by decide⟩
  · simp only [processBuffered, h1, h2, h4, hok, h3, PyVal.toInt]
    exact ⟨trivial, trivial, trivial⟩
  · intro ms addr w hw
    simp [movRegister, hw]

/-! ### Witnesses -/

/-- Witness for C2: the type-check characterization instantiated at a fresh
compiler (stream target, unset Const type) and the string value "a", and the
operator-side membership characterization at the `+` table and the
integer/integer tuple. -/
theorem C2_witness :
    (assignTypecheckErr (Compiler.init ["x"]) (PyVal.vStr "a") = Option.none ↔
      ((Compiler.init ["x"]).getTargetTypedef.type = PyType.tUnset ∨
        (PyVal.vStr "a").typeOf = (Compiler.init ["x"]).getTargetTypedef.type)) ∧
    (operationTypecheckOk Mn.add [PyType.tInt, PyType.tInt] = true ↔
      (tblLookup [([PyType.tInt, PyType.tInt], some Mn.addInt),
        ([PyType.tStr, PyType.tStr], some Mn.addStr)] [PyType.tInt, PyType.tInt]).isSome = true) :=
  ⟨(C2_typecheck_amended (Compiler.init ["x"]) (PyVal.vStr "a")).1,
   (C2_typecheck_amended (Compiler.init ["x"]) (PyVal.vStr "a")).2 Mn.add _
     [PyType.tInt, PyType.tInt] rfl⟩

/-- Witness for C3: type stability instantiated after the first integer
assignment to address 0. -/
theorem C3_witness :
    ((pyIdx (processBuffered (compileState ["&0^i5^n"])).memory_typedefs 0).getD
      (.const .tUnset)).type = PyType.tInt ∧
    pyIdx (compileState ["&0^i5^n", "&0^i6^n"]).memory_typedefs 0 =
      some (TypeDef.var PyType.tInt 2 4 5) :=
  C3_type_fixed_amended (compileState ["&0^i5^n"]) 0 PyType.tInt (by decide) (by decide)

/-- A Select-mode state holding a valid address literal, used to witness the
successful flush-buffer reset. -/
def c4WitnessState : CompilerState :=
  { Compiler.init [""] with mode := Mode.Select, mode_buffers := ⟨"", "0", ""⟩ }

/-- Witness for C4: a successful flush of the Select buffer leaves it
empty. -/
theorem C4_witness :
    (processBuffered c4WitnessState).mode_buffers.get c4WitnessState.mode = "" :=
  C4_reset_amended c4WitnessState (by decide) (by decide)

/-- Witness for C5: buffering `+` on a fresh compiler emits no bytecode, and
the commit character moves the pending list into the bytecode. -/
theorem C5_witness :
    (processChar (Compiler.init []) '+').bytecode = (Compiler.init []).bytecode ∧
    (processChar (Compiler.init []) '!').bytecode =
      (Compiler.init []).bytecode ++ (Compiler.init []).operations :=
  ⟨(C5_batch_commit (Compiler.init []) '+' Mn.add (by decide) (by decide)).1,
   (C5_batch_commit (Compiler.init []) '+' Mn.add (by decide) (by decide)).2.1.1⟩

/-- Witness for C6: after two integer assignments, buffering `+` appends the
specialized integer addition, not the generic mnemonic. -/
theorem C6_witness :
    Mn.addInt ≠ Mn.add ∧
    (bufferOperation (compileState ["&0^i1^n", "&1^i2^n"]) Mn.add).errors = [] ∧
    (bufferOperation (compileState ["&0^i1^n", "&1^i2^n"]) Mn.add).operations =
      (compileState ["&0^i1^n", "&1^i2^n"]).operations ++
        [Instr.mk Mn.addInt
          ((operationTargets (compileState ["&0^i1^n", "&1^i2^n"]) Mn.add).map Operand.target)] :=
  (C6_specialization (compileState ["&0^i1^n", "&1^i2^n"]) Mn.add _ rfl (by decide)).2
    Mn.addInt (by decide)

def movOkA : instruction :=
  { mnemonicFn := movFn, operands := [.target ⟨.Memory, 0⟩, .val (.vInt 5)] }

def movBad : instruction :=
  { mnemonicFn := movFn, operands := [.target ⟨.Memory, NULL⟩, .val (.vInt 0)] }

def movOkB : instruction :=
  { mnemonicFn := movFn, operands := [.target ⟨.Memory, 1⟩, .val (.vInt 7)] }

/-- The state after successfully applying `movOkA` to the initial state. -/
def c7S1 : VMState :=
  { VMState.init with memory := pySet VMState.init.memory 0 (.vInt 5),
                      typing := pySet VMState.init.typing 0 .tInt }

/-- Witness for C7: a write to the null target faults; in strict mode the run
stops with the state after the one successful `mov`, in lenient mode the
fault is reported and the rest still runs from that state. -/
theorem C7_witness :
    VMrun true [movOkA, movBad, movOkB] VMState.init =
      (c7S1, [Fault.runtimeErr "attempted to write to an invalid address"]) ∧
    VMrun false [movOkA, movBad, movOkB] VMState.init =
      ((VMrun false [movOkB] c7S1).1,
        Fault.runtimeErr "attempted to write to an invalid address" ::
          (VMrun false [movOkB] c7S1).2) :=
  ⟨(C7_fault_isolation [movOkA] [movOkB] movBad VMState.init c7S1
      (Fault.runtimeErr "attempted to write to an invalid address") (by decide) rfl).1,
   (C7_fault_isolation [movOkA] [movOkB] movBad VMState.init c7S1
      (Fault.runtimeErr "attempted to write to an invalid address") (by decide) rfl).2.1⟩

/-- A VM state whose memory address 0 holds the string "hi". -/
def c8MS : VMState :=
  { VMState.init with memory := pySet VMState.init.memory 0 (.vStr "hi") }

/-- Witness for C8: `print` on the set source 0 equals the
write-then-flush composition on the stringified value. -/
theorem C8_witness :
    printFn c8MS [Operand.target ⟨.Memory, 0⟩] =
      (writeFn c8MS [.val (.vInt c8MS.stdout), .val (.vStr (pyStr (PyVal.vStr "hi")))]).bind
        (fun ms1 => flushFn ms1 []) :=
  (C8_composition { mnemonicFn := flushFn, operands := [] }
    { mnemonicFn := flushFn, operands := [] } c8MS ⟨.Memory, 0⟩ (PyVal.vStr "hi")
    (by decide) (by decide)).2.2

/-- Witness for C9: the fresh compiler's registers are the identity mapping
and `+` (arity 2) reads operand addresses 0 and 1. -/
theorem C9_witness :
    (Compiler.init []).registers = (List.range REGISTER_MAX_ADDR).map Int.ofNat ∧
    operationTargets (Compiler.init []) Mn.add = [⟨.Memory, 0⟩, ⟨.Memory, 1⟩] :=
  ⟨(C9_register_defaults [] (Compiler.init []) Mn.add rfl rfl).1,
   (C9_register_defaults [] (Compiler.init []) Mn.add rfl rfl).2.1⟩

/-- An Assign-mode state about to write the out-of-range value 99 into
register 0 (the memory has only `MEMORY_MAX_ADDR = 16` slots). -/
def c10S : CompilerState :=
  { Compiler.init [""] with
      mode := Mode.Assign
      assign_type := some AssignKind.Integer
      target_kind := TargetKind.Register
      assign_addr := 0
      mode_buffers := ModeBufferMap.mk "" "" "99" }

/-- Witness for C10: flushing the out-of-range integer 99 into register 0
appends no diagnostic, emits no instruction, and stores 99. -/
theorem C10_witness :
    (processBuffered c10S).errors = c10S.errors ∧
    (processBuffered c10S).registers = pySet c10S.registers c10S.assign_addr 99 ∧
    (processBuffered c10S).bytecode = c10S.bytecode :=
  (C10_register_range c10S 99 rfl rfl rfl (by decide)).1

end Pyvism
